import Mathlib

/-!
# Hotspot viewer: overlay controller and welcome modal

A shallow embedding of `src/main.js`.  The module-level variables and the DOM
properties the script reads or writes are the fields of `State`; every event
listener of the script is a function `State → State`; the mapping library's
`addLayer`, `removeLayer` and `hasLayer` are modelled by a per-layer attachment
bit (a layer is attached to the single map of the page, or it is not).

Console output is diagnostic only and is not part of the state.  Opacities are
exact rationals: `value / 100` is the quotient of the slider's integer value
by one hundred.
-/

namespace HotspotViewer

/-! ## Data model -/

/-- One entry of the `hotspotConfigs` array. -/
structure HotspotConfig where
  id : String
  name : String
  description : String
  source : String
deriving DecidableEq, Repr

/-- The `hotspotConfigs` array, in source order. -/
def hotspotConfigs : List HotspotConfig := [
  { id := "CDTs",
    name := "Centros de Diagnóstico y Tratamiento",
    description := "Concentración de Centros de Diagnóstico y Tratamiento",
    source := "Departamento de Salud, 2024" },
  { id := "Centros_330",
    name := "Centros de Salud Primaria de PR",
    description := "Concentración de Centros de Salud Primaria 330",
    source := "Asociación de Salud Primaria de Puerto Rico, 2024" },
  { id := "Centros_dialisis",
    name := "Centros de Diálisis",
    description := "Concentración de centros de diálisis",
    source := "Departamento de Salud, 2024" },
  { id := "Centros_imagenes",
    name := "Centros de Imágenes",
    description := "Concentración de centros de imágenes",
    source := "Google Places, 2023" },
  { id := "Centros_terminacion_embarazo",
    name := "Centros de salud integral",
    description := "Concentración de centros de salud integral",
    source := "Departamento de Salud, 2024" },
  { id := "Cirugia_ambulatoria",
    name := "Cirugía Ambulatoria",
    description := "Concentración de centros de cirugía ambulatoria",
    source := "Departamento de Salud, 2024" },
  { id := "Farmacias",
    name := "Farmacias",
    description := "Concentración de farmacias",
    source := "Google Places, 2023" },
  { id := "Hospitales",
    name := "Hospitales",
    description := "Concentración de hospitales",
    source := "Departamento de Salud, 2024" },
  { id := "Lab_clinicos",
    name := "Laboratorios clínicos",
    description := "Concentración de laboratorios clínicos",
    source := "Departamento de Salud, 2024" },
  { id := "oficinasmedicas",
    name := "Oficinas médicas",
    description := "Concentración de oficinas médicas",
    source := "Google Places, 2023" },
  { id := "Salas_urgencia",
    name := "Salas de urgencia",
    description := "Concentración de salas de urgencia",
    source := "Departamento de Salud, 2024" } ]

/-- A geographic corner `[lat, lng]`. -/
abbrev LatLng := Rat × Rat

/-- A bounding box `[[lat, lng], [lat, lng]]` as the metadata file gives it. -/
abbrev Bounds := LatLng × LatLng

/-- One value of the fetched metadata object: `{ file, bounds }`. -/
structure RasterMeta where
  file : String
  bounds : Bounds
deriving DecidableEq, Repr

/-- The fetched metadata object: its own properties with a truthy value, one
pair per key.  `rasterMetadata[id]` is `List.lookup id`; a key that is absent
(or whose value is falsy) has no pair and the lookup gives `none`. -/
abbrev RasterMetadata := List (String × RasterMeta)

/-- An image overlay object made by `L.imageOverlay(url, bounds, options)`.
`config` is the descriptor captured by the two callbacks registered on it,
`onMap` says whether the map currently has the layer, and `settled` records
that the image element has already fired its `load` or its `error` event (an
image load ends once, in exactly one of the two ways). -/
structure ImageOverlay where
  url : String
  bounds : Bounds
  opacity : Rat
  interactive : Bool
  crossOrigin : Bool
  config : HotspotConfig
  onMap : Bool
  settled : Bool
deriving DecidableEq, Repr

/-- The observable commands the script issues besides DOM writes. -/
inductive Effect where
  | alert (message : String)
  | fitBounds (bounds : Bounds) (padding : Nat × Nat)
  | typeError (message : String)
deriving DecidableEq, Repr

/-- The parts of the page markup the script reads before it writes them. -/
structure Markup where
  toggleLayerText : String
  layerInfoHtml : String
  opacitySliderValue : Int
  opacityValueText : String
deriving DecidableEq, Repr

/-- The state of the page: module variables, the map's layers and the DOM
properties the script touches.  `overlays` holds every overlay object created
so far; an overlay's identity is its position in that list. -/
structure State where
  overlays : List ImageOverlay
  currentImageOverlay : Option Nat
  rasterMetadata : Option RasterMetadata
  baseLayerOn : Bool
  satelliteLayerOn : Bool
  darkLayerOn : Bool
  loadingDisplay : String
  layerInfoHtml : String
  toggleLayerText : String
  opacitySliderValue : Int
  opacityValueText : String
  layerSelectorValue : String
  layerSelectorListening : Bool
  initResumed : Bool
  log : List Effect
deriving DecidableEq, Repr

/-! ## The mapping library's layer operations -/

/-- The `map.hasLayer(overlay)` test. -/
def hasLayer (i : Nat) (s : State) : Bool :=
  match s.overlays[i]? with
  | some o => o.onMap
  | none => false

/-- Write the attachment bit of overlay `i`. -/
def setOnMap (i : Nat) (b : Bool) (os : List ImageOverlay) : List ImageOverlay :=
  match os[i]? with
  | some o => os.set i { o with onMap := b }
  | none => os

/-- The `map.removeLayer(overlay)` call: the map no longer has the layer. -/
def removeLayer (i : Nat) (s : State) : State :=
  { s with overlays := setOnMap i false s.overlays }

/-- The `overlay.addTo(map)` call: the map has the layer (adding a layer the
map already has changes nothing). -/
def addTo (i : Nat) (s : State) : State :=
  { s with overlays := setOnMap i true s.overlays }

/-- The `overlay.setOpacity(opacity)` call. -/
def setOpacity (i : Nat) (opacity : Rat) (s : State) : State :=
  { s with overlays :=
      match s.overlays[i]? with
      | some o => s.overlays.set i { o with opacity := opacity }
      | none => s.overlays }

/-- The `alert(message)` call. -/
def alert (message : String) (s : State) : State :=
  { s with log := s.log ++ [Effect.alert message] }

/-! ## Functions of `main.js` -/

/-- The function `showLoading(show)`. -/
def showLoading (shw : Bool) (s : State) : State :=
  { s with loadingDisplay := if shw then "block" else "none" }

/-- The function `updateLayerInfo(config)`: the template literal, with its
line breaks and indentation. -/
def updateLayerInfo (config : HotspotConfig) (s : State) : State :=
  { s with layerInfoHtml :=
      "\n        <strong>" ++ config.name ++ "</strong><br>\n        <small>" ++
      config.description ++
      "</small><br>\n        <small style=\"font-size: 11px; color: #888; margin-top: 4px; display: block;\">Fuente: " ++
      config.source ++ "</small>\n    " }

/-- Lines 131-134 and 211-214: detach the current overlay and drop the
reference to it. -/
def removeCurrentOverlay (s : State) : State :=
  match s.currentImageOverlay with
  | some i => { removeLayer i s with currentImageOverlay := none }
  | none => s

/-- The `load` callback registered on an overlay made for `config`. -/
def onOverlayLoad (config : HotspotConfig) (s : State) : State :=
  showLoading false { updateLayerInfo config s with toggleLayerText := "Ocultar Capa" }

/-- The `error` callback registered on an overlay made for `config`. -/
def onOverlayError (config : HotspotConfig) (s : State) : State :=
  showLoading false
    (alert ("Error al cargar " ++ config.name ++ ". Verifique que el archivo existe.") s)

/-- The overlay object `L.imageOverlay(imageUrl, metadata.bounds, options)`
as line 159 builds it, not yet on the map. -/
def newImageOverlay (config : HotspotConfig) (metadata : RasterMeta) (sliderValue : Int) :
    ImageOverlay :=
  { url := "/data/" ++ metadata.file
    bounds := metadata.bounds
    opacity := (sliderValue : Rat) / 100
    interactive := false
    crossOrigin := true
    config := config
    onMap := false
    settled := false }

/-- The tail of `loadHotspotLayer` (lines 153-184) once both lookups have
succeeded: build the overlay, make it current, add it to the map, fit the
map to the bounds. -/
def showOverlay (config : HotspotConfig) (metadata : RasterMeta) (s : State) : State :=
  let i := s.overlays.length
  let s1 : State :=
    { s with
      overlays := s.overlays ++ [newImageOverlay config metadata s.opacitySliderValue]
      currentImageOverlay := some i }
  let s2 := addTo i s1
  { s2 with log := s2.log ++ [Effect.fitBounds metadata.bounds (50, 50)] }

/-- The function `loadHotspotLayer(configId)`.  When `rasterMetadata` is still
`null` the property access of line 145 throws; the state is the one reached
at the throw and the log records it. -/
def loadHotspotLayer (configId : String) (s : State) : State :=
  let s := removeCurrentOverlay (showLoading true s)
  match hotspotConfigs.find? (fun c => c.id == configId) with
  | none => showLoading false s
  | some config =>
    match s.rasterMetadata with
    | none => { s with log := s.log ++ [Effect.typeError "rasterMetadata is null"] }
    | some table =>
      match table.lookup configId with
      | none =>
        showLoading false (alert ("No se encontraron metadatos para " ++ config.name) s)
      | some metadata => showOverlay config metadata s

/-- The `change` listener of `layerSelector` (lines 207-218); `value` is
`e.target.value`, which the browser has already stored in the control.  The
listener exists only once `initializeLayerSelector` has run. -/
def layerSelectorChange (value : String) (s : State) : State :=
  if s.layerSelectorListening then
    let s := { s with layerSelectorValue := value }
    if value ≠ "" then
      loadHotspotLayer value s
    else
      let s := removeCurrentOverlay s
      { s with
        layerInfoHtml := "<small>Seleccione un análisis para ver</small>"
        toggleLayerText := "Ocultar Capa" }
  else s

/-- The `change` listener of `baseLayerSelector` (lines 222-237). -/
def baseLayerChange (value : String) (s : State) : State :=
  let s := { s with baseLayerOn := false }
  let s := { s with satelliteLayerOn := false }
  let s := { s with darkLayerOn := false }
  if value = "satellite" then { s with satelliteLayerOn := true }
  else if value = "dark" then { s with darkLayerOn := true }
  else { s with baseLayerOn := true }

/-- The `click` listener of the `toggleLayer` button (lines 240-250). -/
def toggleLayerClick (s : State) : State :=
  match s.currentImageOverlay with
  | some i =>
    if hasLayer i s then
      { removeLayer i s with toggleLayerText := "Mostrar Capa" }
    else
      { addTo i s with toggleLayerText := "Ocultar Capa" }
  | none => s

/-- The `input` listener of `opacitySlider` (lines 253-260); `value` is
`e.target.value`, the value the browser has already stored in the slider. -/
def opacityInput (value : Int) (s : State) : State :=
  let s := { s with opacitySliderValue := value }
  let opacity : Rat := (value : Rat) / 100
  let s := { s with opacityValueText := toString value ++ "%" }
  match s.currentImageOverlay with
  | some i => setOpacity i opacity s
  | none => s

/-- The rest of `initApp` after `await loadMetadata()` (lines 113-124 and
324-339); `fetched` is the parsed metadata object, or `none` when the fetch or
the parse failed.  It runs once. -/
def initResume (fetched : Option RasterMetadata) (s : State) : State :=
  if s.initResumed then s
  else
    let s := { s with initResumed := true }
    match fetched with
    | some table =>
      let s := { s with rasterMetadata := some table }
      let s := { s with layerSelectorValue := "", layerSelectorListening := true }
      match hotspotConfigs with
      | first :: _ => loadHotspotLayer first.id { s with layerSelectorValue := first.id }
      | [] => showLoading false s
    | none => showLoading false (alert "Error al cargar metadatos de las capas." s)

/-- An overlay's image element fires `load`: the overlay's callback runs.
Only an overlay that exists and whose image has not settled can fire. -/
def overlayLoad (i : Nat) (s : State) : State :=
  match s.overlays[i]? with
  | some o =>
    if o.settled then s
    else onOverlayLoad o.config { s with overlays := s.overlays.set i { o with settled := true } }
  | none => s

/-- An overlay's image element fires `error`: the overlay's callback runs.
Only an overlay that exists and whose image has not settled can fire. -/
def overlayError (i : Nat) (s : State) : State :=
  match s.overlays[i]? with
  | some o =>
    if o.settled then s
    else onOverlayError o.config { s with overlays := s.overlays.set i { o with settled := true } }
  | none => s

/-! ## The page as a transition system -/

/-- The events the page reacts to. -/
inductive Event where
  | initResume (fetched : Option RasterMetadata)
  | layerSelectorChange (value : String)
  | baseLayerChange (value : String)
  | toggleLayerClick
  | opacityInput (value : Int)
  | overlayLoad (i : Nat)
  | overlayError (i : Nat)
deriving DecidableEq, Repr

/-- One event, handled to completion. -/
def step (s : State) : Event → State
  | Event.initResume fetched => initResume fetched s
  | Event.layerSelectorChange value => layerSelectorChange value s
  | Event.baseLayerChange value => baseLayerChange value s
  | Event.toggleLayerClick => toggleLayerClick s
  | Event.opacityInput value => opacityInput value s
  | Event.overlayLoad i => overlayLoad i s
  | Event.overlayError i => overlayError i s

/-- A sequence of events, each handled to completion, in order. -/
def run (s : State) (es : List Event) : State := es.foldl step s

/-- The state once the script has been evaluated up to the first `await` of
`initApp`: the default base layer is on the map (line 12), there is no
overlay, no metadata, and `showLoading(true)` has run (line 321). -/
def initial (m : Markup) : State :=
  { overlays := []
    currentImageOverlay := none
    rasterMetadata := none
    baseLayerOn := true
    satelliteLayerOn := false
    darkLayerOn := false
    loadingDisplay := "block"
    layerInfoHtml := m.layerInfoHtml
    toggleLayerText := m.toggleLayerText
    opacitySliderValue := m.opacitySliderValue
    opacityValueText := m.opacityValueText
    layerSelectorValue := ""
    layerSelectorListening := false
    initResumed := false
    log := [] }

/-- The states the page can be in: those some sequence of events leads to
from the start, for some markup. -/
def Reachable (s : State) : Prop := ∃ m es, s = run (initial m) es

/-! ## Observations -/

/-- The overlays the map currently has, by identity. -/
def attachedOverlays (s : State) : List Nat :=
  (List.range s.overlays.length).filter (fun i => hasLayer i s)

/-- The base layers the map currently has. -/
inductive BaseLayer where
  | baseLayer | satelliteLayer | darkLayer
deriving DecidableEq, Repr

/-- The base layers the map currently has, in declaration order. -/
def attachedBaseLayers (s : State) : List BaseLayer :=
  (if s.baseLayerOn then [BaseLayer.baseLayer] else []) ++
  (if s.satelliteLayerOn then [BaseLayer.satelliteLayer] else []) ++
  (if s.darkLayerOn then [BaseLayer.darkLayer] else [])

/-- Whether the loading indicator is displayed. -/
def loadingShown (s : State) : Bool := s.loadingDisplay == "block"

/-- The unit interval clamp of the specification's `setOpacity`. -/
def clampUnit (x : Rat) : Rat := max 0 (min 1 x)

/-- The most recently created overlay, if any, has fired neither callback. -/
def newestPending (s : State) : Prop :=
  ∀ o, s.overlays[s.overlays.length - 1]? = some o → o.settled = false

/-- The catalog lookup of line 137 or the metadata lookup of line 145 fails for
`configId`. -/
def lookupFails (s : State) (configId : String) : Prop :=
  hotspotConfigs.find? (fun c => c.id == configId) = none ∨
  ∃ table, s.rasterMetadata = some table ∧ table.lookup configId = none

/-- The property kept by every event: only the current overlay can be on the
map, and the selector listens only once the metadata is there. -/
structure Inv (s : State) : Prop where
  attached_current : ∀ i, hasLayer i s = true → s.currentImageOverlay = some i
  listening_metadata : s.layerSelectorListening = true → s.rasterMetadata ≠ none
  loading_pending : loadingShown s = true → newestPending s

/-! ## The welcome modal -/

/-- The welcome modal: whether its class list has `hidden`, and the
`hideWelcomeModal` item of local storage (`none` when absent). -/
structure ModalState where
  hidden : Bool
  hideWelcomeModal : Option String
deriving DecidableEq, Repr

/-- Truthiness of `localStorage.getItem(key)`: `null` and the empty string
are falsy. -/
def truthy : Option String → Bool
  | none => false
  | some v => v != ""

/-- Lines 293-297: the startup code; `markupHidden` says whether the markup
gives the modal the class `hidden`. -/
def modalStartup (markupHidden : Bool) (storage : Option String) : ModalState :=
  let hideWelcome := storage
  if !truthy hideWelcome then { hidden := false, hideWelcomeModal := storage }
  else { hidden := markupHidden, hideWelcomeModal := storage }

/-- Whether the startup code un-hides the modal (the test of line 295). -/
def autoShown (storage : Option String) : Bool := !truthy storage

/-- The events of the welcome modal. -/
inductive ModalEvent where
  | closeClick (dontShowAgainChecked : Bool)
  | showInfoClick
  | modalClick (targetIsModal : Bool)
deriving DecidableEq, Repr

/-- The three listeners of lines 300-317. -/
def modalStep (m : ModalState) : ModalEvent → ModalState
  | ModalEvent.closeClick checked =>
    let m := if checked then { m with hideWelcomeModal := some "true" } else m
    { m with hidden := true }
  | ModalEvent.showInfoClick => { m with hidden := false }
  | ModalEvent.modalClick targetIsModal =>
    if targetIsModal then { m with hidden := true } else m

/-- A sequence of modal events, in order. -/
def modalRun (m : ModalState) (es : List ModalEvent) : ModalState := es.foldl modalStep m

/-! ## Sample inputs -/

/-- A page markup: the toggle button reads `Ocultar Capa`, the slider is at 70. -/
def sampleMarkup : Markup :=
  { toggleLayerText := "Ocultar Capa"
    layerInfoHtml := "<small>Seleccione un análisis para ver</small>"
    opacitySliderValue := 70
    opacityValueText := "70%" }

/-- A metadata object with entries for three of the eleven catalog ids. -/
def sampleMetadata : RasterMetadata :=
  [ ("CDTs", { file := "CDTs.png", bounds := ((17, -68), (19, -65)) }),
    ("Farmacias", { file := "Farmacias.png", bounds := ((17, -68), (19, -65)) }),
    ("Hospitales", { file := "Hospitales.png", bounds := ((17, -68), (19, -65)) }) ]

/-- The page after startup with `sampleMetadata`: the first catalog entry,
`CDTs`, is showing as overlay 0. -/
def startedState : State := run (initial sampleMarkup) [Event.initResume (some sampleMetadata)]

/-! ## Layer bookkeeping lemmas -/

theorem length_setOnMap (i : Nat) (b : Bool) (os : List ImageOverlay) :
    (setOnMap i b os).length = os.length := by
  unfold setOnMap
  split <;> simp

theorem getElem?_setOnMap (i j : Nat) (b : Bool) (os : List ImageOverlay) :
    (setOnMap i b os)[j]? =
      if j = i then (os[j]?).map (fun o => { o with onMap := b }) else os[j]? := by
  unfold setOnMap
  by_cases hji : j = i
  · subst hji
    cases h : os[j]? with
    | none => simp [h]
    | some o =>
      have hlt : j < os.length := (List.getElem?_eq_some.mp h).1
      simp [h, List.getElem?_set, hlt]
  · cases h : os[i]? with
    | none => simp [hji]
    | some o =>
      have hne : i ≠ j := fun e => hji e.symm
      simp [hji, List.getElem?_set, hne]

theorem hasLayer_removeLayer (i j : Nat) (s : State) :
    hasLayer j (removeLayer i s) = (if j = i then false else hasLayer j s) := by
  unfold hasLayer removeLayer
  simp only [getElem?_setOnMap]
  by_cases hji : j = i
  · simp only [hji, if_true]
    cases s.overlays[i]? <;> rfl
  · simp [hji]

theorem hasLayer_addTo (i j : Nat) (s : State) :
    hasLayer j (addTo i s) =
      (if j = i then decide (i < s.overlays.length) else hasLayer j s) := by
  unfold hasLayer addTo
  simp only [getElem?_setOnMap]
  by_cases hji : j = i
  · simp only [hji, if_true]
    cases h : s.overlays[i]? with
    | none =>
      have : ¬ i < s.overlays.length := by
        intro hlt
        simp [List.getElem?_eq_getElem hlt] at h
      simp [this]
    | some o =>
      have hlt : i < s.overlays.length := (List.getElem?_eq_some.mp h).1
      simp [hlt]
  · simp [hji]

theorem hasLayer_congr {s t : State} (h : t.overlays = s.overlays) (j : Nat) :
    hasLayer j t = hasLayer j s := by
  unfold hasLayer
  rw [h]

theorem getElem?_setOpacity (i j : Nat) (x : Rat) (s : State) :
    (setOpacity i x s).overlays[j]? =
      if j = i then (s.overlays[j]?).map (fun o => { o with opacity := x })
      else s.overlays[j]? := by
  unfold setOpacity
  by_cases hji : j = i
  · subst hji
    cases h : s.overlays[j]? with
    | none => simp [h]
    | some o =>
      have hlt : j < s.overlays.length := (List.getElem?_eq_some.mp h).1
      simp [h, List.getElem?_set, hlt]
  · cases h : s.overlays[i]? with
    | none => simp [hji]
    | some o =>
      have hne : i ≠ j := fun e => hji e.symm
      simp [hji, List.getElem?_set, hne]

theorem length_setOpacity (i : Nat) (x : Rat) (s : State) :
    (setOpacity i x s).overlays.length = s.overlays.length := by
  unfold setOpacity
  cases s.overlays[i]? <;> simp

theorem hasLayer_setOpacity (i j : Nat) (x : Rat) (s : State) :
    hasLayer j (setOpacity i x s) = hasLayer j s := by
  unfold hasLayer
  rw [getElem?_setOpacity]
  by_cases hji : j = i
  · simp only [hji, if_true]
    cases s.overlays[i]? <;> rfl
  · simp [hji]

/-- Rewriting attachment bits keeps the newest overlay pending. -/
theorem newestPending_setOnMap {s t : State} (i : Nat) (b : Bool)
    (h : t.overlays = setOnMap i b s.overlays) (hp : newestPending s) : newestPending t := by
  intro o ho
  rw [h, length_setOnMap, getElem?_setOnMap] at ho
  by_cases hji : s.overlays.length - 1 = i
  · rw [if_pos hji] at ho
    cases h2 : s.overlays[s.overlays.length - 1]? with
    | none => rw [h2] at ho; cases ho
    | some o2 =>
      rw [h2] at ho
      rw [Option.map_some'] at ho; simp only [Option.some.injEq] at ho
      rw [← ho]
      exact hp o2 h2
  · rw [if_neg hji] at ho
    exact hp o ho

/-- Rewriting an opacity keeps the newest overlay pending. -/
theorem newestPending_setOpacity (i : Nat) (x : Rat) (s : State)
    (hp : newestPending s) : newestPending (setOpacity i x s) := by
  intro o ho
  rw [length_setOpacity, getElem?_setOpacity] at ho
  by_cases hji : s.overlays.length - 1 = i
  · rw [if_pos hji] at ho
    cases h2 : s.overlays[s.overlays.length - 1]? with
    | none => rw [h2] at ho; cases ho
    | some o2 =>
      rw [h2] at ho
      rw [Option.map_some'] at ho; simp only [Option.some.injEq] at ho
      rw [← ho]
      exact hp o2 h2
  · rw [if_neg hji] at ho
    exact hp o ho

/-- After the teardown no overlay is on the map, provided only the current
one could be. -/
theorem hasLayer_removeCurrentOverlay {s : State}
    (h : ∀ i, hasLayer i s = true → s.currentImageOverlay = some i) (j : Nat) :
    hasLayer j (removeCurrentOverlay s) = false := by
  unfold removeCurrentOverlay
  cases hc : s.currentImageOverlay with
  | none =>
    simp only
    cases hj : hasLayer j s with
    | false => rfl
    | true => rw [h j hj] at hc; cases hc
  | some i =>
    simp only
    have e : hasLayer j { removeLayer i s with currentImageOverlay := none } =
        hasLayer j (removeLayer i s) := hasLayer_congr rfl j
    rw [e, hasLayer_removeLayer]
    by_cases hji : j = i
    · simp [hji]
    · rw [if_neg hji]
      cases hj : hasLayer j s with
      | false => rfl
      | true =>
        rw [h j hj] at hc
        exact absurd (Option.some.inj hc) hji

theorem currentImageOverlay_removeCurrentOverlay (s : State) :
    (removeCurrentOverlay s).currentImageOverlay = none := by
  unfold removeCurrentOverlay
  cases hc : s.currentImageOverlay <;> simp [hc]

theorem length_removeCurrentOverlay (s : State) :
    (removeCurrentOverlay s).overlays.length = s.overlays.length := by
  unfold removeCurrentOverlay
  cases hc : s.currentImageOverlay <;> simp [removeLayer, length_setOnMap]

theorem newestPending_removeCurrentOverlay (s : State) (hp : newestPending s) :
    newestPending (removeCurrentOverlay s) := by
  unfold removeCurrentOverlay
  cases hc : s.currentImageOverlay with
  | none => exact hp
  | some i => exact newestPending_setOnMap i false rfl hp

/-- The overlay list after `showOverlay`: one new overlay, on the map. -/
theorem overlays_showOverlay (config : HotspotConfig) (metadata : RasterMeta) (s : State) :
    (showOverlay config metadata s).overlays =
      s.overlays ++ [{ newImageOverlay config metadata s.opacitySliderValue with onMap := true }] := by
  simp [showOverlay, addTo, setOnMap]

/-! ## The invariant is kept by every event -/

theorem inv_showLoading_false {s : State}
    (h1 : ∀ i, hasLayer i s = true → s.currentImageOverlay = some i)
    (h2 : s.layerSelectorListening = true → s.rasterMetadata ≠ none) :
    Inv (showLoading false s) :=
  { attached_current := fun i hi => h1 i (by rw [← hi]; exact (hasLayer_congr rfl i).symm)
    listening_metadata := h2
    loading_pending := fun hl => by simp [loadingShown, showLoading] at hl }

theorem inv_showOverlay (config : HotspotConfig) (metadata : RasterMeta) {s : State}
    (h1 : ∀ j, hasLayer j s = false)
    (h2 : s.layerSelectorListening = true → s.rasterMetadata ≠ none) :
    Inv (showOverlay config metadata s) := by
  have hov := overlays_showOverlay config metadata s
  refine ⟨?_, h2, ?_⟩
  · intro j hj
    have hcur : (showOverlay config metadata s).currentImageOverlay = some s.overlays.length := rfl
    rw [hcur]
    unfold hasLayer at hj
    rw [hov] at hj
    rcases Nat.lt_trichotomy j s.overlays.length with hlt | heq | hgt
    · rw [List.getElem?_append_left hlt] at hj
      have := h1 j
      unfold hasLayer at this
      rw [this] at hj
      cases hj
    · rw [heq]
    · rw [List.getElem?_eq_none (by simp; omega)] at hj
      cases hj
  · intro _ o ho
    rw [hov] at ho
    simp at ho
    rw [← ho]
    rfl

theorem inv_loadHotspotLayer (configId : String) {s : State} (h : Inv s)
    (hm : s.rasterMetadata ≠ none) : Inv (loadHotspotLayer configId s) := by
  have h1 : ∀ j, hasLayer j (removeCurrentOverlay (showLoading true s)) = false :=
    hasLayer_removeCurrentOverlay
      (fun i hi => h.attached_current i (by rw [← hi]; exact (hasLayer_congr rfl i).symm))
  have h1c : ∀ i, hasLayer i (removeCurrentOverlay (showLoading true s)) = true →
      (removeCurrentOverlay (showLoading true s)).currentImageOverlay = some i := by
    intro i hi
    rw [h1 i] at hi
    cases hi
  have hmeta : (removeCurrentOverlay (showLoading true s)).rasterMetadata = s.rasterMetadata := by
    unfold removeCurrentOverlay
    cases (showLoading true s).currentImageOverlay <;> rfl
  have hlis : (removeCurrentOverlay (showLoading true s)).layerSelectorListening =
      s.layerSelectorListening := by
    unfold removeCurrentOverlay
    cases (showLoading true s).currentImageOverlay <;> rfl
  have h2 : (removeCurrentOverlay (showLoading true s)).layerSelectorListening = true →
      (removeCurrentOverlay (showLoading true s)).rasterMetadata ≠ none := by
    intro _
    rw [hmeta]
    exact hm
  unfold loadHotspotLayer
  simp only
  cases hotspotConfigs.find? (fun c => c.id == configId) with
  | none => exact inv_showLoading_false h1c h2
  | some config =>
    simp only
    cases hrm : (removeCurrentOverlay (showLoading true s)).rasterMetadata with
    | none => rw [hmeta] at hrm; exact absurd hrm hm
    | some table =>
      simp only
      cases table.lookup configId with
      | none =>
        exact inv_showLoading_false
          (fun i hi => h1c i ((hasLayer_congr rfl i).trans hi)) h2
      | some metadata => exact inv_showOverlay config metadata h1 h2

theorem inv_layerSelectorChange (value : String) {s : State} (h : Inv s) :
    Inv (layerSelectorChange value s) := by
  unfold layerSelectorChange
  by_cases hl : s.layerSelectorListening = true
  · rw [if_pos hl]
    simp only
    by_cases hv : value ≠ ""
    · rw [if_pos hv]
      exact inv_loadHotspotLayer value
        ⟨h.attached_current, h.listening_metadata, h.loading_pending⟩
        (h.listening_metadata hl)
    · rw [if_neg hv]
      have h1 : ∀ j, hasLayer j
          (removeCurrentOverlay { s with layerSelectorValue := value }) = false :=
        hasLayer_removeCurrentOverlay h.attached_current
      refine ⟨?_, ?_, ?_⟩
      · intro i hi
        have : hasLayer i (removeCurrentOverlay { s with layerSelectorValue := value }) = true := by
          rw [← hi]; exact (hasLayer_congr rfl i).symm
        rw [h1 i] at this
        cases this
      · intro _
        have : (removeCurrentOverlay { s with layerSelectorValue := value }).rasterMetadata =
            s.rasterMetadata := by
          unfold removeCurrentOverlay
          cases s.currentImageOverlay <;> rfl
        show (removeCurrentOverlay { s with layerSelectorValue := value }).rasterMetadata ≠ none
        rw [this]
        exact h.listening_metadata hl
      · intro hload
        have hd : (removeCurrentOverlay { s with layerSelectorValue := value }).loadingDisplay =
            s.loadingDisplay := by
          unfold removeCurrentOverlay
          cases s.currentImageOverlay <;> rfl
        have hp : newestPending (removeCurrentOverlay { s with layerSelectorValue := value }) :=
          newestPending_removeCurrentOverlay _
            (h.loading_pending (by
              have : loadingShown s = (s.loadingDisplay == "block") := rfl
              rw [this, ← hd]; exact hload))
        exact hp
  · rw [if_neg hl]
    exact h

theorem inv_baseLayerChange (value : String) {s : State} (h : Inv s) :
    Inv (baseLayerChange value s) := by
  unfold baseLayerChange
  simp only
  split_ifs <;> exact ⟨h.attached_current, h.listening_metadata, h.loading_pending⟩

theorem inv_toggleLayerClick {s : State} (h : Inv s) : Inv (toggleLayerClick s) := by
  unfold toggleLayerClick
  split
  · rename_i i hc
    by_cases hh : hasLayer i s = true
    · rw [if_pos hh]
      refine ⟨?_, h.listening_metadata, ?_⟩
      · intro j hj
        have e : hasLayer j (removeLayer i s) = true := (hasLayer_congr rfl j).trans hj
        rw [hasLayer_removeLayer] at e
        by_cases hji : j = i
        · rw [if_pos hji] at e; cases e
        · rw [if_neg hji] at e
          exact h.attached_current j e
      · intro hl
        exact newestPending_setOnMap i false rfl (h.loading_pending hl)
    · rw [if_neg hh]
      refine ⟨?_, h.listening_metadata, ?_⟩
      · intro j hj
        have e : hasLayer j (addTo i s) = true := (hasLayer_congr rfl j).trans hj
        rw [hasLayer_addTo] at e
        by_cases hji : j = i
        · show s.currentImageOverlay = some j
          rw [hji]; exact hc
        · rw [if_neg hji] at e
          exact h.attached_current j e
      · intro hl
        exact newestPending_setOnMap i true rfl (h.loading_pending hl)
  · exact h

theorem inv_opacityInput (value : Int) {s : State} (h : Inv s) : Inv (opacityInput value s) := by
  unfold opacityInput
  simp only
  split
  · rename_i i hc
    refine ⟨?_, h.listening_metadata, ?_⟩
    · intro j hj
      rw [hasLayer_setOpacity] at hj
      exact h.attached_current j hj
    · intro hl
      exact newestPending_setOpacity i _ _ (h.loading_pending hl)
  · exact ⟨h.attached_current, h.listening_metadata, h.loading_pending⟩

theorem inv_settle_showLoading_false {s t : State} (i : Nat) (o : ImageOverlay) (h : Inv s)
    (ho : s.overlays[i]? = some o)
    (hov : t.overlays = s.overlays.set i { o with settled := true })
    (hcur : t.currentImageOverlay = s.currentImageOverlay)
    (hlis : t.layerSelectorListening = s.layerSelectorListening)
    (hmd : t.rasterMetadata = s.rasterMetadata)
    (hld : t.loadingDisplay = "none") : Inv t := by
  refine ⟨?_, ?_, ?_⟩
  · intro j hj
    rw [hcur]
    apply h.attached_current
    unfold hasLayer at hj ⊢
    rw [hov, List.getElem?_set] at hj
    by_cases hij : i = j
    · subst hij
      rw [ho]
      have hlt : i < s.overlays.length := (List.getElem?_eq_some.mp ho).1
      simpa [hlt] using hj
    · simpa [hij] using hj
  · rw [hlis, hmd]
    exact h.listening_metadata
  · intro hl
    simp [loadingShown, hld] at hl

theorem inv_overlayLoad (i : Nat) {s : State} (h : Inv s) : Inv (overlayLoad i s) := by
  unfold overlayLoad
  cases ho : s.overlays[i]? with
  | none => exact h
  | some o =>
    simp only
    by_cases hs : o.settled = true
    · rw [if_pos hs]; exact h
    · rw [if_neg hs]
      exact inv_settle_showLoading_false i o h ho rfl rfl rfl rfl rfl

theorem inv_overlayError (i : Nat) {s : State} (h : Inv s) : Inv (overlayError i s) := by
  unfold overlayError
  cases ho : s.overlays[i]? with
  | none => exact h
  | some o =>
    simp only
    by_cases hs : o.settled = true
    · rw [if_pos hs]; exact h
    · rw [if_neg hs]
      exact inv_settle_showLoading_false i o h ho rfl rfl rfl rfl rfl

theorem inv_initResume (fetched : Option RasterMetadata) {s : State} (h : Inv s) :
    Inv (initResume fetched s) := by
  unfold initResume
  by_cases hr : s.initResumed = true
  · rw [if_pos hr]; exact h
  · rw [if_neg hr]
    simp only
    cases fetched with
    | none =>
      exact inv_showLoading_false h.attached_current h.listening_metadata
    | some table =>
      simp only [hotspotConfigs]
      apply inv_loadHotspotLayer
      · exact ⟨h.attached_current, fun _ => by simp, h.loading_pending⟩
      · simp

theorem inv_initial (m : Markup) : Inv (initial m) :=
  { attached_current := fun i hi => by simp [hasLayer, initial] at hi
    listening_metadata := fun hl => by simp [initial] at hl
    loading_pending := fun _ o ho => by simp [initial] at ho }

theorem inv_step (e : Event) {s : State} (h : Inv s) : Inv (step s e) := by
  cases e with
  | initResume fetched => exact inv_initResume fetched h
  | layerSelectorChange value => exact inv_layerSelectorChange value h
  | baseLayerChange value => exact inv_baseLayerChange value h
  | toggleLayerClick => exact inv_toggleLayerClick h
  | opacityInput value => exact inv_opacityInput value h
  | overlayLoad i => exact inv_overlayLoad i h
  | overlayError i => exact inv_overlayError i h

theorem inv_run (es : List Event) : ∀ {s : State}, Inv s → Inv (run s es) := by
  induction es with
  | nil => intro s h; exact h
  | cons e es ih => intro s h; exact ih (inv_step e h)

theorem inv_of_reachable {s : State} (h : Reachable s) : Inv s := by
  obtain ⟨m, es, rfl⟩ := h
  exact inv_run es (inv_initial m)

/-! ## Facts shared by the theorems below -/

theorem reachable_run {s : State} (h : Reachable s) (es : List Event) :
    Reachable (run s es) := by
  obtain ⟨m, es0, rfl⟩ := h
  exact ⟨m, es0 ++ es, by simp [run, List.foldl_append]⟩

theorem reachable_startedState : Reachable startedState := ⟨sampleMarkup, _, rfl⟩

theorem attachedOverlays_congr {s t : State} (hl : t.overlays.length = s.overlays.length)
    (hh : ∀ j, hasLayer j t = hasLayer j s) : attachedOverlays t = attachedOverlays s := by
  unfold attachedOverlays
  rw [hl]
  exact List.filter_congr (fun j _ => hh j)

theorem attachedOverlays_eq_nil {s : State} (h : ∀ j, hasLayer j s = false) :
    attachedOverlays s = [] := by
  unfold attachedOverlays
  rw [List.filter_eq_nil_iff]
  intro j _
  simp [h j]

theorem attachedOverlays_showOverlay (config : HotspotConfig) (metadata : RasterMeta)
    {s : State} (h : ∀ j, hasLayer j s = false) :
    attachedOverlays (showOverlay config metadata s) = [s.overlays.length] := by
  have hov := overlays_showOverlay config metadata s
  unfold attachedOverlays
  rw [hov, List.length_append, List.length_singleton, List.range_succ, List.filter_append]
  have hleft : (List.range s.overlays.length).filter
      (fun i => hasLayer i (showOverlay config metadata s)) = [] := by
    rw [List.filter_eq_nil_iff]
    intro j hj
    have hlt : j < s.overlays.length := List.mem_range.mp hj
    have := h j
    unfold hasLayer at this ⊢
    rw [hov, List.getElem?_append_left hlt, this]
    simp
  have hright : hasLayer s.overlays.length (showOverlay config metadata s) = true := by
    unfold hasLayer
    rw [hov]
    simp
  rw [hleft]
  simp [hright]

theorem find_hotspotConfig {configId : String}
    (hid : configId ∈ hotspotConfigs.map (fun c => c.id)) :
    ∃ config, hotspotConfigs.find? (fun c => c.id == configId) = some config ∧
      config ∈ hotspotConfigs ∧ config.id = configId := by
  cases hf : hotspotConfigs.find? (fun c => c.id == configId) with
  | none =>
    rw [List.find?_eq_none] at hf
    obtain ⟨c, hc, hcid⟩ := List.mem_map.mp hid
    exact absurd (by simpa using hcid) (hf c hc)
  | some config =>
    refine ⟨config, rfl, List.mem_of_find?_eq_some hf, ?_⟩
    simpa using List.find?_some hf

/-- The state after the first two statements of `loadHotspotLayer`. -/
theorem teardown_facts (s : State) :
    (removeCurrentOverlay (showLoading true s)).overlays.length = s.overlays.length ∧
    (removeCurrentOverlay (showLoading true s)).log = s.log ∧
    (removeCurrentOverlay (showLoading true s)).opacitySliderValue = s.opacitySliderValue ∧
    (removeCurrentOverlay (showLoading true s)).rasterMetadata = s.rasterMetadata := by
  refine ⟨length_removeCurrentOverlay _, ?_, ?_, ?_⟩ <;>
  · unfold removeCurrentOverlay
    cases (showLoading true s).currentImageOverlay <;> rfl

/-- With both lookups succeeding, `loadHotspotLayer` is the teardown followed
by `showOverlay`. -/
theorem loadHotspotLayer_found {s : State} {configId : String} {config : HotspotConfig}
    {table : RasterMetadata} {metadata : RasterMeta}
    (hf : hotspotConfigs.find? (fun c => c.id == configId) = some config)
    (htable : s.rasterMetadata = some table)
    (hmeta : table.lookup configId = some metadata) :
    loadHotspotLayer configId s =
      showOverlay config metadata (removeCurrentOverlay (showLoading true s)) := by
  unfold loadHotspotLayer
  simp only [hf, (teardown_facts s).2.2.2, htable, hmeta]

theorem length_le_one_of_all_eq {l : List Nat} (hn : l.Nodup) {c : Option Nat}
    (h : ∀ i ∈ l, c = some i) : l.length ≤ 1 := by
  match l, hn, h with
  | [], _, _ => simp
  | [_], _, _ => simp
  | x :: y :: _, hn, h =>
    have hx := h x (by simp)
    have hy := h y (by simp)
    rw [hx] at hy
    have : x = y := Option.some.inj hy
    subst this
    simp at hn

/-! ## The claims -/

/-- C7: in every state reachable from startup by any sequence of events (layer
selections valid or rejected, deselections, visibility toggles, opacity
changes, base-layer changes, overlay callbacks), at most one image overlay is
attached to the map, and an attached image overlay is the one held in
`currentImageOverlay`. -/
theorem at_most_one_overlay_attached (s : State) (h : Reachable s) :
    (attachedOverlays s).length ≤ 1 ∧
      ∀ i ∈ attachedOverlays s, s.currentImageOverlay = some i := by
  have hinv := inv_of_reachable h
  have hall : ∀ i ∈ attachedOverlays s, s.currentImageOverlay = some i := by
    intro i hi
    unfold attachedOverlays at hi
    exact hinv.attached_current i (List.mem_filter.mp hi).2
  exact ⟨length_le_one_of_all_eq (List.nodup_range _ |>.filter _) hall, hall⟩

/-- Witness of C7: the page after replacing a layer, hiding the new one,
re-showing it and deselecting. -/
theorem at_most_one_overlay_attached_witness :
    Reachable (run startedState
        [Event.layerSelectorChange "Farmacias", Event.toggleLayerClick,
         Event.layerSelectorChange "missing", Event.layerSelectorChange "Hospitales"]) ∧
      ((attachedOverlays (run startedState
        [Event.layerSelectorChange "Farmacias", Event.toggleLayerClick,
         Event.layerSelectorChange "missing", Event.layerSelectorChange "Hospitales"])).length ≤ 1 ∧
      ∀ i ∈ attachedOverlays (run startedState
        [Event.layerSelectorChange "Farmacias", Event.toggleLayerClick,
         Event.layerSelectorChange "missing", Event.layerSelectorChange "Hospitales"]),
        (run startedState
          [Event.layerSelectorChange "Farmacias", Event.toggleLayerClick,
           Event.layerSelectorChange "missing",
           Event.layerSelectorChange "Hospitales"]).currentImageOverlay = some i) :=
  ⟨reachable_run reachable_startedState _,
    at_most_one_overlay_attached _ (reachable_run reachable_startedState _)⟩

/-- C3: whatever base layers were attached beforehand and whatever the
selector value, the base-layer change handler ends with exactly one of the
three base layers attached: `satelliteLayer` for `satellite`, `darkLayer` for
`dark`, `baseLayer` for every other value. -/
theorem baseLayerChange_exactly_one (s : State) (value : String) :
    attachedBaseLayers (baseLayerChange value s) =
      [if value = "satellite" then BaseLayer.satelliteLayer
       else if value = "dark" then BaseLayer.darkLayer
       else BaseLayer.baseLayer] := by
  unfold baseLayerChange attachedBaseLayers
  by_cases h1 : value = "satellite"
  · simp [h1]
  · by_cases h2 : value = "dark"
    · simp [h2]
    · simp [h1, h2]

/-- C2: for every reachable state, every id of `hotspotConfigs` with a metadata
entry and every slider percentage `p`, `loadHotspotLayer(id)` ends with exactly
one image overlay attached, which is the new `currentImageOverlay`, built from
the url `/data/` + file, the metadata bounds and opacity `p / 100`, and the
last command issued fits the map to those bounds with padding `[50, 50]`. -/
theorem loadHotspotLayer_shows_overlay (s : State) (configId : String) (p : Int)
    (table : RasterMetadata) (metadata : RasterMeta)
    (hs : Reachable s)
    (hid : configId ∈ hotspotConfigs.map (fun c => c.id))
    (htable : s.rasterMetadata = some table)
    (hmeta : table.lookup configId = some metadata)
    (hp : s.opacitySliderValue = p) :
    ∃ config ∈ hotspotConfigs, config.id = configId ∧
      attachedOverlays (loadHotspotLayer configId s) = [s.overlays.length] ∧
      (loadHotspotLayer configId s).currentImageOverlay = some s.overlays.length ∧
      (loadHotspotLayer configId s).overlays[s.overlays.length]? =
        some { url := "/data/" ++ metadata.file
               bounds := metadata.bounds
               opacity := (p : Rat) / 100
               interactive := false
               crossOrigin := true
               config := config
               onMap := true
               settled := false } ∧
      (loadHotspotLayer configId s).log =
        s.log ++ [Effect.fitBounds metadata.bounds (50, 50)] := by
  obtain ⟨config, hf, hmem, hcid⟩ := find_hotspotConfig hid
  have hinv := inv_of_reachable hs
  have h1 : ∀ j, hasLayer j (removeCurrentOverlay (showLoading true s)) = false :=
    hasLayer_removeCurrentOverlay
      (fun i hi => hinv.attached_current i ((hasLayer_congr rfl i).symm.trans hi))
  obtain ⟨hlen, hlog, hsl, _⟩ := teardown_facts s
  refine ⟨config, hmem, hcid, ?_⟩
  rw [loadHotspotLayer_found hf htable hmeta]
  refine ⟨?_, ?_, ?_, ?_⟩
  · rw [attachedOverlays_showOverlay config metadata h1, hlen]
  · show some (removeCurrentOverlay (showLoading true s)).overlays.length = _
    rw [hlen]
  · rw [overlays_showOverlay, ← hlen, hsl, hp]
    simp [newImageOverlay]
  · show (removeCurrentOverlay (showLoading true s)).log ++ _ = _
    rw [hlog]

/-- Witness of C2: the slider is set to 30 while no layer is selected, then
`Farmacias` is loaded. -/
theorem loadHotspotLayer_shows_overlay_witness :
    Reachable (run startedState [Event.layerSelectorChange "", Event.opacityInput 30]) ∧
      (run startedState
        [Event.layerSelectorChange "", Event.opacityInput 30]).currentImageOverlay = none ∧
      ∃ config ∈ hotspotConfigs, config.id = "Farmacias" ∧
        attachedOverlays (loadHotspotLayer "Farmacias"
          (run startedState [Event.layerSelectorChange "", Event.opacityInput 30])) = [1] ∧
        (loadHotspotLayer "Farmacias"
          (run startedState
            [Event.layerSelectorChange "", Event.opacityInput 30])).currentImageOverlay = some 1 ∧
        (loadHotspotLayer "Farmacias"
          (run startedState [Event.layerSelectorChange "", Event.opacityInput 30])).overlays[1]? =
          some { url := "/data/" ++ "Farmacias.png"
                 bounds := ((17, -68), (19, -65))
                 opacity := ((30 : Int) : Rat) / 100
                 interactive := false
                 crossOrigin := true
                 config := config
                 onMap := true
                 settled := false } ∧
        (loadHotspotLayer "Farmacias"
          (run startedState [Event.layerSelectorChange "", Event.opacityInput 30])).log =
          (run startedState [Event.layerSelectorChange "", Event.opacityInput 30]).log ++
            [Effect.fitBounds ((17, -68), (19, -65)) (50, 50)] :=
  ⟨reachable_run reachable_startedState _, rfl,
    loadHotspotLayer_shows_overlay
      (run startedState [Event.layerSelectorChange "", Event.opacityInput 30])
      "Farmacias" 30 sampleMetadata { file := "Farmacias.png", bounds := ((17, -68), (19, -65)) }
      (reachable_run reachable_startedState _) (by decide) rfl rfl rfl⟩

/-- Counterexample to C1 as stated: with the `CDTs` overlay showing, a load of
an id absent from the catalog, and a load of a catalog id absent from the
metadata, both end with `currentImageOverlay` null and the overlay detached. -/
theorem loadHotspotLayer_rejected_drops_overlay :
    startedState.currentImageOverlay = some 0 ∧ hasLayer 0 startedState = true ∧
    hotspotConfigs.find? (fun c => c.id == "missing") = none ∧
    (loadHotspotLayer "missing" startedState).currentImageOverlay = none ∧
    hasLayer 0 (loadHotspotLayer "missing" startedState) = false ∧
    startedState.rasterMetadata = some sampleMetadata ∧
    sampleMetadata.lookup "Lab_clinicos" = none ∧
    (loadHotspotLayer "Lab_clinicos" startedState).currentImageOverlay = none ∧
    hasLayer 0 (loadHotspotLayer "Lab_clinicos" startedState) = false := by
  decide

/-- C1, amended: for every reachable state and every id whose catalog lookup
or metadata lookup fails, `loadHotspotLayer(id)` ends with
`currentImageOverlay` null and no image overlay attached to the map (the
teardown runs before the lookups), so the current overlay is the same as
before exactly when there was none. -/
theorem loadHotspotLayer_rejected_clears_overlay (s : State) (configId : String)
    (hs : Reachable s) (hfail : lookupFails s configId) :
    (loadHotspotLayer configId s).currentImageOverlay = none ∧
    attachedOverlays (loadHotspotLayer configId s) = [] ∧
    ((loadHotspotLayer configId s).currentImageOverlay = s.currentImageOverlay ↔
      s.currentImageOverlay = none) := by
  have hinv := inv_of_reachable hs
  have h1 : ∀ j, hasLayer j (removeCurrentOverlay (showLoading true s)) = false :=
    hasLayer_removeCurrentOverlay
      (fun i hi => hinv.attached_current i ((hasLayer_congr rfl i).symm.trans hi))
  have hcur := currentImageOverlay_removeCurrentOverlay (showLoading true s)
  have key : (loadHotspotLayer configId s).currentImageOverlay = none ∧
      ∀ j, hasLayer j (loadHotspotLayer configId s) = false := by
    unfold loadHotspotLayer
    simp only
    cases hf : hotspotConfigs.find? (fun c => c.id == configId) with
    | none => exact ⟨hcur, fun j => (hasLayer_congr rfl j).trans (h1 j)⟩
    | some config =>
      rcases hfail with hnone | ⟨table, htable, hlook⟩
      · rw [hf] at hnone; cases hnone
      · simp only [(teardown_facts s).2.2.2, htable, hlook]
        exact ⟨hcur, fun j => (hasLayer_congr rfl j).trans (h1 j)⟩
  refine ⟨key.1, attachedOverlays_eq_nil key.2, ?_⟩
  rw [key.1]
  exact ⟨fun h => h.symm, fun h => h.symm⟩

/-- Witness of C1, amended: a catalog id without metadata, selected while the
`CDTs` overlay is showing. -/
theorem loadHotspotLayer_rejected_clears_overlay_witness :
    Reachable startedState ∧ lookupFails startedState "Lab_clinicos" ∧
    (loadHotspotLayer "Lab_clinicos" startedState).currentImageOverlay = none ∧
    attachedOverlays (loadHotspotLayer "Lab_clinicos" startedState) = [] ∧
    ((loadHotspotLayer "Lab_clinicos" startedState).currentImageOverlay =
        startedState.currentImageOverlay ↔ startedState.currentImageOverlay = none) :=
  ⟨reachable_startedState, Or.inr ⟨sampleMetadata, rfl, rfl⟩,
    loadHotspotLayer_rejected_clears_overlay startedState "Lab_clinicos"
      reachable_startedState (Or.inr ⟨sampleMetadata, rfl, rfl⟩)⟩

theorem opacityInput_opacityInput (v : Int) (s : State) :
    opacityInput v (opacityInput v s) = opacityInput v s := by
  cases s with
  | mk os cur md b1 b2 b3 ld li tt sv ov lv ll ir lg =>
    cases cur with
    | none => rfl
    | some i =>
      cases h : os[i]? with
      | none => simp [opacityInput, setOpacity, h]
      | some o =>
        have hlt : i < os.length := (List.getElem?_eq_some.mp h).1
        simp [opacityInput, setOpacity, h, List.getElem?_set, hlt]

/-- Counterexample to C5 as stated: with the `CDTs` overlay live, the slider
value 150 puts the opacity 150/100 on it, which is not the clamped value. -/
theorem opacityInput_not_clamped :
    startedState.currentImageOverlay = some 0 ∧
    ((opacityInput 150 startedState).overlays[0]?).map (fun o => o.opacity) =
      some (((150 : Int) : Rat) / 100) ∧
    ((150 : Int) : Rat) / 100 ≠ clampUnit (((150 : Int) : Rat) / 100) := by
  refine ⟨rfl, rfl, ?_⟩
  unfold clampUnit
  norm_num

/-- C5, amended: for every integer slider value `v` the handler puts the
opacity `v / 100`, unclamped, on the live overlay whether it is attached or
detached; that is the clamped value whenever `0 ≤ v ≤ 100`; and handling the
same value a second time leaves the state exactly as the first handling left
it. -/
theorem opacityInput_applies_and_idempotent (s : State) (v : Int) (i : Nat) (o : ImageOverlay)
    (hc : s.currentImageOverlay = some i) (ho : s.overlays[i]? = some o) :
    (opacityInput v s).overlays[i]? = some { o with opacity := (v : Rat) / 100 } ∧
    (0 ≤ v → v ≤ 100 → (v : Rat) / 100 = clampUnit ((v : Rat) / 100)) ∧
    opacityInput v (opacityInput v s) = opacityInput v s := by
  refine ⟨?_, ?_, ?_⟩
  · unfold opacityInput
    simp only [hc]
    rw [getElem?_setOpacity]
    simp [ho]
  · intro h0 h100
    unfold clampUnit
    have h0q : (0 : Rat) ≤ (v : Rat) / 100 := by
      apply div_nonneg
      · exact_mod_cast h0
      · norm_num
    have h1q : (v : Rat) / 100 ≤ 1 := by
      rw [div_le_one (by norm_num)]
      exact_mod_cast h100
    rw [min_eq_right h1q, max_eq_right h0q]
  · exact opacityInput_opacityInput v s

/-- Witness of C5, amended: the slider value 30 with the `CDTs` overlay live. -/
theorem opacityInput_applies_and_idempotent_witness :
    startedState.currentImageOverlay = some 0 ∧
    startedState.overlays[0]? = some
      { newImageOverlay
          { id := "CDTs"
            name := "Centros de Diagnóstico y Tratamiento"
            description := "Concentración de Centros de Diagnóstico y Tratamiento"
            source := "Departamento de Salud, 2024" }
          { file := "CDTs.png", bounds := ((17, -68), (19, -65)) } 70 with onMap := true } ∧
    ((opacityInput 30 startedState).overlays[0]? = some
      { newImageOverlay
          { id := "CDTs"
            name := "Centros de Diagnóstico y Tratamiento"
            description := "Concentración de Centros de Diagnóstico y Tratamiento"
            source := "Departamento de Salud, 2024" }
          { file := "CDTs.png", bounds := ((17, -68), (19, -65)) } 70 with
        onMap := true, opacity := ((30 : Int) : Rat) / 100 } ∧
    ((0 : Int) ≤ 30 → (30 : Int) ≤ 100 →
      ((30 : Int) : Rat) / 100 = clampUnit (((30 : Int) : Rat) / 100)) ∧
    opacityInput 30 (opacityInput 30 startedState) = opacityInput 30 startedState) :=
  ⟨rfl, rfl, opacityInput_applies_and_idempotent startedState 30 0 _ rfl rfl⟩

theorem overlayError_pending {s : State} {i : Nat} {o : ImageOverlay}
    (ho : s.overlays[i]? = some o) (hs : o.settled = false) :
    overlayError i s =
      onOverlayError o.config
        { s with overlays := s.overlays.set i { o with settled := true } } := by
  unfold overlayError
  simp [ho, hs]

theorem overlayLoad_pending {s : State} {i : Nat} {o : ImageOverlay}
    (ho : s.overlays[i]? = some o) (hs : o.settled = false) :
    overlayLoad i s =
      onOverlayLoad o.config
        { s with overlays := s.overlays.set i { o with settled := true } } := by
  unfold overlayLoad
  simp [ho, hs]

/-- Recording that an overlay's image has settled changes no attachment. -/
theorem hasLayer_settle {s t : State} {i : Nat} {o : ImageOverlay}
    (ho : s.overlays[i]? = some o)
    (hov : t.overlays = s.overlays.set i { o with settled := true }) (j : Nat) :
    hasLayer j t = hasLayer j s := by
  unfold hasLayer
  rw [hov, List.getElem?_set]
  by_cases hij : i = j
  · subst hij
    have hlt : i < s.overlays.length := (List.getElem?_eq_some.mp ho).1
    simp [ho, hlt]
  · simp [hij]

/-- Counterexample to C6 as stated: `Farmacias` is selected while `Hospitales`
is showing and its image load fails; the `Farmacias` overlay (overlay 2) is
still attached to the map afterwards. -/
theorem error_leaves_overlay_attached :
    (run startedState [Event.layerSelectorChange "Hospitales"]).currentImageOverlay = some 1 ∧
    hasLayer 1 (run startedState [Event.layerSelectorChange "Hospitales"]) = true ∧
    attachedOverlays (run startedState
      [Event.layerSelectorChange "Hospitales", Event.layerSelectorChange "Farmacias",
       Event.overlayError 2]) = [2] ∧
    ((run startedState
      [Event.layerSelectorChange "Hospitales", Event.layerSelectorChange "Farmacias",
       Event.overlayError 2]).overlays[2]?).map (fun o => o.config.id) = some "Farmacias" ∧
    (run startedState
      [Event.layerSelectorChange "Hospitales", Event.layerSelectorChange "Farmacias",
       Event.overlayError 2]).log.getLast? =
      some (Effect.alert "Error al cargar Farmacias. Verifique que el archivo existe.") := by
  decide

/-- C6, amended: when a layer B with a descriptor and metadata is selected,
whatever overlay A was showing is detached before B's overlay is created
(after the teardown no overlay is on the map and none has been added yet), and if B's image load then fails an alert naming B is raised, the
loading indicator is hidden, and B's overlay stays attached to the map as the
only attached overlay. -/
theorem replace_then_error_keeps_overlay (s : State) (configId : String)
    (table : RasterMetadata) (metadata : RasterMeta)
    (hs : Reachable s)
    (hid : configId ∈ hotspotConfigs.map (fun c => c.id))
    (htable : s.rasterMetadata = some table)
    (hmeta : table.lookup configId = some metadata) :
    (∀ a, hasLayer a (removeCurrentOverlay (showLoading true s)) = false) ∧
    (removeCurrentOverlay (showLoading true s)).overlays.length = s.overlays.length ∧
    ∃ config ∈ hotspotConfigs, config.id = configId ∧
      loadHotspotLayer configId s =
        showOverlay config metadata (removeCurrentOverlay (showLoading true s)) ∧
      attachedOverlays (overlayError s.overlays.length (loadHotspotLayer configId s)) =
        [s.overlays.length] ∧
      (overlayError s.overlays.length (loadHotspotLayer configId s)).currentImageOverlay =
        some s.overlays.length ∧
      (overlayError s.overlays.length (loadHotspotLayer configId s)).log =
        (loadHotspotLayer configId s).log ++
          [Effect.alert ("Error al cargar " ++ config.name ++
            ". Verifique que el archivo existe.")] ∧
      loadingShown (overlayError s.overlays.length (loadHotspotLayer configId s)) = false := by
  obtain ⟨config, hf, hmem, hcid⟩ := find_hotspotConfig hid
  have hinv := inv_of_reachable hs
  have h1 : ∀ j, hasLayer j (removeCurrentOverlay (showLoading true s)) = false :=
    hasLayer_removeCurrentOverlay
      (fun i hi => hinv.attached_current i ((hasLayer_congr rfl i).symm.trans hi))
  obtain ⟨hlen, _, _, _⟩ := teardown_facts s
  refine ⟨h1, hlen, config, hmem, hcid, loadHotspotLayer_found hf htable hmeta, ?_⟩
  rw [loadHotspotLayer_found hf htable hmeta]
  have hov := overlays_showOverlay config metadata (removeCurrentOverlay (showLoading true s))
  have hget : (showOverlay config metadata (removeCurrentOverlay (showLoading true s))).overlays[
      s.overlays.length]? =
      some { newImageOverlay config metadata
              (removeCurrentOverlay (showLoading true s)).opacitySliderValue with onMap := true } := by
    rw [hov, ← hlen]
    simp
  rw [overlayError_pending hget rfl]
  refine ⟨?_, ?_, rfl, rfl⟩
  · have e := attachedOverlays_showOverlay config metadata h1
    rw [hlen] at e
    rw [← e]
    apply attachedOverlays_congr
    · show (List.set _ _ _).length = _
      rw [List.length_set]
    · intro j
      exact hasLayer_settle hget rfl j
  · show some (removeCurrentOverlay (showLoading true s)).overlays.length = _
    rw [hlen]

/-- Witness of C6, amended: `Farmacias` selected while `Hospitales` (overlay 1)
is showing. -/
theorem replace_then_error_keeps_overlay_witness :
    Reachable (run startedState [Event.layerSelectorChange "Hospitales"]) ∧
    (run startedState [Event.layerSelectorChange "Hospitales"]).currentImageOverlay = some 1 ∧
    hasLayer 1 (run startedState [Event.layerSelectorChange "Hospitales"]) = true ∧
    hasLayer 1 (removeCurrentOverlay
      (showLoading true (run startedState [Event.layerSelectorChange "Hospitales"]))) = false ∧
    ∃ config ∈ hotspotConfigs, config.id = "Farmacias" ∧
      attachedOverlays (overlayError 2 (loadHotspotLayer "Farmacias"
        (run startedState [Event.layerSelectorChange "Hospitales"]))) = [2] ∧
      (overlayError 2 (loadHotspotLayer "Farmacias"
        (run startedState [Event.layerSelectorChange "Hospitales"]))).log =
        (loadHotspotLayer "Farmacias"
          (run startedState [Event.layerSelectorChange "Hospitales"])).log ++
          [Effect.alert ("Error al cargar " ++ config.name ++
            ". Verifique que el archivo existe.")] :=
  have h := replace_then_error_keeps_overlay
    (run startedState [Event.layerSelectorChange "Hospitales"]) "Farmacias" sampleMetadata
    { file := "Farmacias.png", bounds := ((17, -68), (19, -65)) }
    (reachable_run reachable_startedState _) (by decide) rfl rfl
  ⟨reachable_run reachable_startedState _, rfl, rfl, h.1 1,
    h.2.2.imp (fun _ h => ⟨h.1, h.2.1, h.2.2.2.1, h.2.2.2.2.2.1⟩)⟩

/-- Counterexample to C8 as stated: `Farmacias` is selected before the image
of the auto-loaded `CDTs` overlay arrives; the `load` callback of the
replaced overlay 0 then hides the indicator and rewrites the layer info while
the newest overlay 1 has fired neither callback. -/
theorem stale_callback_hides_loading :
    loadingShown (run startedState [Event.layerSelectorChange "Farmacias"]) = true ∧
    (run startedState [Event.layerSelectorChange "Farmacias"]).currentImageOverlay = some 1 ∧
    loadingShown (run startedState
      [Event.layerSelectorChange "Farmacias", Event.overlayLoad 0]) = false ∧
    ((run startedState
      [Event.layerSelectorChange "Farmacias", Event.overlayLoad 0]).overlays[1]?).map
        (fun o => o.settled) = some false ∧
    (run startedState
      [Event.layerSelectorChange "Farmacias", Event.overlayLoad 0]).layerInfoHtml ≠
      (run startedState [Event.layerSelectorChange "Farmacias"]).layerInfoHtml := by
  decide

/-- C8, amended: in every reachable state the loading indicator is shown only
while the most recently created overlay, if there is one, has fired neither
its `load` nor its `error` callback; a selection rejected for a missing
descriptor or missing metadata leaves it hidden, a selection that creates an
overlay leaves it shown, and a `load` or `error` callback of any overlay,
current or replaced, hides it. -/
theorem loading_shown_only_while_newest_pending (s : State) (hs : Reachable s) :
    (loadingShown s = true → newestPending s) ∧
    (∀ configId, lookupFails s configId →
      loadingShown (loadHotspotLayer configId s) = false) ∧
    (∀ configId table metadata, configId ∈ hotspotConfigs.map (fun c => c.id) →
      s.rasterMetadata = some table → table.lookup configId = some metadata →
      loadingShown (loadHotspotLayer configId s) = true) ∧
    (∀ i o, s.overlays[i]? = some o → o.settled = false →
      loadingShown (overlayLoad i s) = false ∧ loadingShown (overlayError i s) = false) := by
  refine ⟨(inv_of_reachable hs).loading_pending, ?_, ?_, ?_⟩
  · intro configId hfail
    unfold loadHotspotLayer
    simp only
    cases hf : hotspotConfigs.find? (fun c => c.id == configId) with
    | none => rfl
    | some config =>
      rcases hfail with hnone | ⟨table, htable, hlook⟩
      · rw [hf] at hnone; cases hnone
      · simp only [(teardown_facts s).2.2.2, htable, hlook]
        rfl
  · intro configId table metadata hid htable hmeta
    obtain ⟨config, hf, _, _⟩ := find_hotspotConfig hid
    rw [loadHotspotLayer_found hf htable hmeta]
    show loadingShown (removeCurrentOverlay (showLoading true s)) = true
    unfold removeCurrentOverlay
    cases (showLoading true s).currentImageOverlay <;> rfl
  · intro i o ho hset
    rw [overlayLoad_pending ho hset, overlayError_pending ho hset]
    exact ⟨rfl, rfl⟩

/-- Witness of C8, amended: the page with `Farmacias` just selected over the
auto-loaded `CDTs`. -/
theorem loading_shown_only_while_newest_pending_witness :
    Reachable (run startedState [Event.layerSelectorChange "Farmacias"]) ∧
    loadingShown (run startedState [Event.layerSelectorChange "Farmacias"]) = true ∧
    newestPending (run startedState [Event.layerSelectorChange "Farmacias"]) ∧
    loadingShown (loadHotspotLayer "Lab_clinicos"
      (run startedState [Event.layerSelectorChange "Farmacias"])) = false ∧
    loadingShown (overlayLoad 0
      (run startedState [Event.layerSelectorChange "Farmacias"])) = false :=
  have h := loading_shown_only_while_newest_pending
    (run startedState [Event.layerSelectorChange "Farmacias"])
    (reachable_run reachable_startedState _)
  ⟨reachable_run reachable_startedState _, rfl, h.1 rfl,
    h.2.1 "Lab_clinicos" (Or.inr ⟨sampleMetadata, rfl, rfl⟩),
    (h.2.2.2 0 _ rfl rfl).1⟩

theorem setOnMap_setOnMap (i : Nat) (b c : Bool) (os : List ImageOverlay) :
    setOnMap i b (setOnMap i c os) = setOnMap i b os := by
  apply List.ext_getElem?
  intro j
  simp only [getElem?_setOnMap]
  by_cases hji : j = i
  · simp only [hji, if_true]
    cases os[i]? <;> rfl
  · simp [hji]

theorem setOnMap_eq_self {i : Nat} {o : ImageOverlay} {os : List ImageOverlay}
    (ho : os[i]? = some o) : setOnMap i o.onMap os = os := by
  apply List.ext_getElem?
  intro j
  simp only [getElem?_setOnMap]
  by_cases hji : j = i
  · simp [hji, ho]
  · simp [hji]

theorem toggleLayerClick_attached {s : State} {i : Nat}
    (hc : s.currentImageOverlay = some i) (hh : hasLayer i s = true) :
    toggleLayerClick s = { removeLayer i s with toggleLayerText := "Mostrar Capa" } := by
  unfold toggleLayerClick
  split
  · rename_i j hj
    rw [hc] at hj
    cases hj
    rw [if_pos hh]
  · rename_i hn
    rw [hc] at hn
    cases hn

theorem toggleLayerClick_detached {s : State} {i : Nat}
    (hc : s.currentImageOverlay = some i) (hh : hasLayer i s = false) :
    toggleLayerClick s = { addTo i s with toggleLayerText := "Ocultar Capa" } := by
  unfold toggleLayerClick
  split
  · rename_i j hj
    rw [hc] at hj
    cases hj
    rw [if_neg (by simp [hh])]
  · rename_i hn
    rw [hc] at hn
    cases hn

/-- Counterexample to C4 as stated: `CDTs` is hidden with the toggle button,
then `Farmacias` is selected and its image load fails.  In that state the
`Farmacias` overlay is current and attached and the button reads
`Mostrar Capa`; two clicks later the overlay is attached again but the button
reads `Ocultar Capa`. -/
theorem toggle_twice_changes_label :
    (run startedState
      [Event.toggleLayerClick, Event.layerSelectorChange "Farmacias",
       Event.overlayError 1]).currentImageOverlay = some 1 ∧
    hasLayer 1 (run startedState
      [Event.toggleLayerClick, Event.layerSelectorChange "Farmacias",
       Event.overlayError 1]) = true ∧
    (run startedState
      [Event.toggleLayerClick, Event.layerSelectorChange "Farmacias",
       Event.overlayError 1]).toggleLayerText = "Mostrar Capa" ∧
    (toggleLayerClick (toggleLayerClick (run startedState
      [Event.toggleLayerClick, Event.layerSelectorChange "Farmacias",
       Event.overlayError 1]))).currentImageOverlay = some 1 ∧
    hasLayer 1 (toggleLayerClick (toggleLayerClick (run startedState
      [Event.toggleLayerClick, Event.layerSelectorChange "Farmacias",
       Event.overlayError 1]))) = true ∧
    (toggleLayerClick (toggleLayerClick (run startedState
      [Event.toggleLayerClick, Event.layerSelectorChange "Farmacias",
       Event.overlayError 1]))).toggleLayerText = "Ocultar Capa" := by
  decide

/-- C4, amended: when `currentImageOverlay` is null a click changes nothing;
when it is a live overlay, two clicks in succession restore the same
`currentImageOverlay`, the same attached or detached status and the same
opacity of every overlay, and leave the button with the label that matches the
attachment (`Ocultar Capa` when attached, `Mostrar Capa` when detached), so
the whole state is restored whenever the label matched the attachment before
the first click. -/
theorem toggle_twice_restores (s : State) :
    (s.currentImageOverlay = none → toggleLayerClick s = s) ∧
    ∀ i o, s.currentImageOverlay = some i → s.overlays[i]? = some o →
      toggleLayerClick (toggleLayerClick s) =
        { s with toggleLayerText := if o.onMap then "Ocultar Capa" else "Mostrar Capa" } ∧
      (s.toggleLayerText = (if o.onMap then "Ocultar Capa" else "Mostrar Capa") →
        toggleLayerClick (toggleLayerClick s) = s) := by
  constructor
  · intro hc
    unfold toggleLayerClick
    rw [hc]
  · intro i o hc ho
    have key : toggleLayerClick (toggleLayerClick s) =
        { s with toggleLayerText := if o.onMap then "Ocultar Capa" else "Mostrar Capa" } := by
      have hself := setOnMap_eq_self ho
      cases hon : o.onMap with
      | true =>
        rw [hon] at hself
        have h1 : hasLayer i s = true := by simp [hasLayer, ho, hon]
        have h2 : hasLayer i { removeLayer i s with toggleLayerText := "Mostrar Capa" } = false :=
          (hasLayer_congr (s := removeLayer i s) rfl i).trans
            (by rw [hasLayer_removeLayer]; simp)
        rw [toggleLayerClick_attached hc h1,
          toggleLayerClick_detached
            (s := { removeLayer i s with toggleLayerText := "Mostrar Capa" }) hc h2]
        have hov : setOnMap i true (setOnMap i false s.overlays) = s.overlays := by
          rw [setOnMap_setOnMap, hself]
        cases s
        simp only [addTo, removeLayer] at hov ⊢
        simp [hov]
      | false =>
        rw [hon] at hself
        have h1 : hasLayer i s = false := by simp [hasLayer, ho, hon]
        have h2 : hasLayer i { addTo i s with toggleLayerText := "Ocultar Capa" } = true :=
          (hasLayer_congr (s := addTo i s) rfl i).trans
            (by rw [hasLayer_addTo]; simp [(List.getElem?_eq_some.mp ho).1])
        rw [toggleLayerClick_detached hc h1,
          toggleLayerClick_attached
            (s := { addTo i s with toggleLayerText := "Ocultar Capa" }) hc h2]
        have hov : setOnMap i false (setOnMap i true s.overlays) = s.overlays := by
          rw [setOnMap_setOnMap, hself]
        cases s
        simp only [addTo, removeLayer] at hov ⊢
        simp [hov]
    refine ⟨key, fun hl => ?_⟩
    rw [key, ← hl]

/-- Witness of C4, amended: the page with the `CDTs` overlay showing under
the label `Ocultar Capa`. -/
theorem toggle_twice_restores_witness :
    startedState.currentImageOverlay = some 0 ∧
    startedState.toggleLayerText = "Ocultar Capa" ∧
    hasLayer 0 startedState = true ∧
    toggleLayerClick (toggleLayerClick startedState) = startedState :=
  ⟨rfl, rfl, rfl,
    ((toggle_twice_restores startedState).2 0
      { newImageOverlay
          { id := "CDTs"
            name := "Centros de Diagnóstico y Tratamiento"
            description := "Concentración de Centros de Diagnóstico y Tratamiento"
            source := "Departamento de Salud, 2024" }
          { file := "CDTs.png", bounds := ((17, -68), (19, -65)) } 70 with onMap := true }
      rfl rfl).2 rfl⟩

/-- C10, evaluated on the code: starting from a button that reads
`Ocultar Capa`, three reachable states in which the label disagrees with the
attachment.  After hiding `CDTs` and selecting `Farmacias` the new overlay is
attached under the label `Mostrar Capa`; after hiding `CDTs` and selecting an
id without metadata there is no overlay under the label `Mostrar Capa`; after
hiding `CDTs` before its image arrives, its `load` callback puts the label
`Ocultar Capa` on a detached overlay. -/
theorem toggle_label_disagrees_with_attachment :
    ((run startedState
      [Event.toggleLayerClick, Event.layerSelectorChange "Farmacias"]).currentImageOverlay
        = some 1 ∧
     hasLayer 1 (run startedState
      [Event.toggleLayerClick, Event.layerSelectorChange "Farmacias"]) = true ∧
     (run startedState
      [Event.toggleLayerClick, Event.layerSelectorChange "Farmacias"]).toggleLayerText
        = "Mostrar Capa") ∧
    ((run startedState
      [Event.toggleLayerClick, Event.layerSelectorChange "Lab_clinicos"]).currentImageOverlay
        = none ∧
     (run startedState
      [Event.toggleLayerClick, Event.layerSelectorChange "Lab_clinicos"]).toggleLayerText
        = "Mostrar Capa") ∧
    ((run startedState [Event.toggleLayerClick, Event.overlayLoad 0]).currentImageOverlay
        = some 0 ∧
     hasLayer 0 (run startedState [Event.toggleLayerClick, Event.overlayLoad 0]) = false ∧
     (run startedState [Event.toggleLayerClick, Event.overlayLoad 0]).toggleLayerText
        = "Ocultar Capa") := by
  decide

theorem truthy_modalRun (es : List ModalEvent) : ∀ m : ModalState,
    truthy (modalRun m es).hideWelcomeModal =
      (truthy m.hideWelcomeModal || decide (ModalEvent.closeClick true ∈ es)) := by
  induction es with
  | nil => intro m; simp [modalRun]
  | cons e es ih =>
    intro m
    have hstep : modalRun m (e :: es) = modalRun (modalStep m e) es := rfl
    rw [hstep, ih]
    cases e with
    | closeClick checked => cases checked <;> simp [modalStep, truthy]
    | showInfoClick => simp [modalStep]
    | modalClick targetIsModal => cases targetIsModal <;> simp [modalStep]

/-- C9: starting with the `hideWelcomeModal` flag absent, after every
sequence of welcome-modal events (close button with the checkbox checked or
unchecked, click on or inside the modal, show-info click) the next startup
un-hides the modal iff the sequence has no close-button click made while the
checkbox was checked, so a modal hidden by the markup is visible after that
startup under the same condition; and a show-info click makes the modal
visible whatever the flag. -/
theorem welcome_modal_autoshow (es : List ModalEvent) (markupHidden : Bool) :
    (autoShown (modalRun (modalStartup markupHidden none) es).hideWelcomeModal = true ↔
      ModalEvent.closeClick true ∉ es) ∧
    ((modalStartup true
        (modalRun (modalStartup markupHidden none) es).hideWelcomeModal).hidden = false ↔
      ModalEvent.closeClick true ∉ es) ∧
    ∀ m : ModalState, (modalStep m ModalEvent.showInfoClick).hidden = false := by
  have ht := truthy_modalRun es (modalStartup markupHidden none)
  have h0 : truthy (modalStartup markupHidden none).hideWelcomeModal = false := rfl
  rw [h0, Bool.false_or] at ht
  refine ⟨?_, ?_, fun _ => rfl⟩
  · unfold autoShown
    rw [ht]
    simp
  · generalize (modalRun (modalStartup markupHidden none) es).hideWelcomeModal = st at ht
    unfold modalStartup
    by_cases hmem : ModalEvent.closeClick true ∈ es <;> simp [ht, hmem]

end HotspotViewer
